import Mathlib

/-!
Shallow embedding of the two operator scripts in harry-symeonidis/fortinet-tools:

* `upgradeFortigateFirmware.py` — fleet firmware upgrader: per-device query of
  available firmware, exact version matching, best-effort config backup, image
  upload, iterated over a CSV inventory.
* `BasicFgtSdwanConfig.py` — SD-WAN provisioner: VDOM selection, zone creation,
  interface attachment, default-route configuration.

HTTP traffic is modelled by passing each call's outcome explicitly: an
`Except Unit (status, body)` where `.error` stands for a raised transport
exception (`requests` raising) and `.ok (status, body)` for a completed HTTP
response.  Console printing is not modelled except where it can raise (the
`print_firmware_options` iteration over `None`).
-/

/-! ## upgradeFortigateFirmware.py : version parsing

`parse_version_from_filename` applies the Python regex `v?(\d+\.\d+\.\d+)`
with `re.search` (leftmost match, greedy `\d+`) and returns `"v" + group(1)`,
or `None` when nothing matches.  The regex is embedded as a character-list
scanner: at each start position, optionally consume a `v`, then require three
maximal nonempty ASCII-digit runs separated by literal dots.  (Python `\d`
also accepts non-ASCII decimal digits; filenames here are ASCII.)
-/

/-- Match `\d+\.\d+\.\d+` at the head of `l`, returning the captured group. -/
def matchVersionCore (l : List Char) : Option (List Char) :=
  let d1 := l.takeWhile Char.isDigit
  let r1 := l.dropWhile Char.isDigit
  if d1.isEmpty then none else
  match r1 with
  | '.' :: r2 =>
    let d2 := r2.takeWhile Char.isDigit
    let r3 := r2.dropWhile Char.isDigit
    if d2.isEmpty then none else
    match r3 with
    | '.' :: r4 =>
      let d3 := r4.takeWhile Char.isDigit
      if d3.isEmpty then none
      else some (d1 ++ '.' :: (d2 ++ '.' :: d3))
    | _ => none
  | _ => none

/-- Match `v?(\d+\.\d+\.\d+)` at the head of `l`: the `v?` alternative with the
`v` consumed is tried first, then the empty alternative (which can only
succeed if the head is itself a digit). -/
def matchVersionAt (l : List Char) : Option (List Char) :=
  match l with
  | 'v' :: rest =>
    match matchVersionCore rest with
    | some g => some g
    | none => matchVersionCore l
  | _ => matchVersionCore l

/-- The `re.search` loop: try every start position left to right. -/
def searchVersion : List Char → Option (List Char)
  | [] => none
  | c :: rest =>
    match matchVersionAt (c :: rest) with
    | some g => some g
    | none => searchVersion rest

/-- Embedding of `parse_version_from_filename`: leftmost regex match of
`v?(\d+\.\d+\.\d+)`, returned with a `v` prefixed, else `none`. -/
def parse_version_from_filename (s : String) : Option String :=
  (searchVersion s.data).map (fun g => "v" ++ String.mk g)

/-! ## upgradeFortigateFirmware.py : data model -/

/-- One entry of the raw JSON array `results.available`, each field read with
`dict.get` and hence possibly absent (`none`). `build` is an integer in the
API, so Python truthiness for it means nonzero. -/
structure RawFirmware where
  version : Option String
  build : Option Nat
  releaseType : Option String
  maturity : Option String
  notes : Option String
deriving Repr, DecidableEq

/-- A firmware candidate dict as built by `get_available_firmware` once the
four mandatory fields passed the truthiness check; `notes` is carried over
unchecked. -/
structure Firmware where
  version : String
  build : Nat
  releaseType : String
  maturity : String
  notes : Option String
deriving Repr, DecidableEq

/-- Body of a 200 response of `GET monitor/system/firmware`:
`results.current.version` and `results.available`. -/
structure FirmwareBody where
  current : String
  available : List RawFirmware
deriving Repr, DecidableEq

/-- The filtering loop of `get_available_firmware`: an entry is kept exactly
when `version and build and releaseType and maturity` is truthy in Python,
i.e. all four are present and nonempty / nonzero. -/
def filter_available : List RawFirmware → List Firmware
  | [] => []
  | fw :: rest =>
    match fw.version, fw.build, fw.releaseType, fw.maturity with
    | some v, some b, some rt, some m =>
      if v ≠ "" ∧ b ≠ 0 ∧ rt ≠ "" ∧ m ≠ "" then
        ⟨v, b, rt, m, fw.notes⟩ :: filter_available rest
      else filter_available rest
    | _, _, _, _ => filter_available rest

/-- Embedding of `get_available_firmware`.  The argument is the outcome of the
`requests.get` call: `.error` models a raised transport exception, which
propagates; a non-200 status returns the Python `(None, None)` (modelled
`none`); a 200 status returns the current version and the filtered list. -/
def get_available_firmware (resp : Except Unit (Nat × FirmwareBody)) :
    Except Unit (Option (String × List Firmware)) :=
  match resp with
  | .error e => .error e
  | .ok (status, body) =>
    if status ≠ 200 then .ok none
    else .ok (some (body.current, filter_available body.available))

/-- Embedding of `print_firmware_options`, reduced to its only effect that can
alter control flow: `for i, fw in enumerate(available_firmware)` raises
`TypeError` when `available_firmware` is `None`. -/
def print_firmware_options (available : Option (List Firmware)) :
    Except Unit Unit :=
  match available with
  | none => .error ()
  | some _ => .ok ()

/-- Embedding of `save_configuration`: on a non-200 backup response it prints
and returns `None` (no file); on 200 it writes one file named
`"{fgt_name}-{fw_ip}-config-backup.conf"` whose content is `response.text`.
The result is `some (filename, content)` for the file written. -/
def save_configuration (fgt_name fw_ip : String) (status : Nat)
    (text : String) : Option (String × String) :=
  if status ≠ 200 then none
  else some (fgt_name ++ "-" ++ fw_ip ++ "-config-backup.conf", text)

/-- One CSV row of `firewalls.csv`; a missing or empty field reads as the
empty string (falsy in Python, as `csv.DictReader` yields `None` for short
rows and `not` treats `None` and `""` alike). -/
structure DeviceRow where
  fgt_name : String
  fw_ip : String
  api_token : String
deriving Repr, DecidableEq

/-- The row fails `if not (fgt_name and fw_ip and api_token)`. -/
def malformedRow (row : DeviceRow) : Prop :=
  row.fgt_name = "" ∨ row.fw_ip = "" ∨ row.api_token = ""

instance (row : DeviceRow) : Decidable (malformedRow row) := by
  unfold malformedRow; infer_instance

/-- The network's behaviour towards one device: the outcome of each of the
three HTTP calls the per-device workflow can make. -/
structure DeviceEnv where
  firmware : Except Unit (Nat × FirmwareBody)
  backup : Except Unit (Nat × String)
  upload : Except Unit (Nat × Option Nat)
deriving Repr

/-- Terminal outcome of one device's iteration of the `main` loop. -/
inductive DeviceResult where
  /-- Malformed row: `continue` after the field check. -/
  | skipped
  /-- `get_available_firmware` raised; caught by the `try`, `continue`. -/
  | queryFailed
  /-- An uncaught exception escaped `main`, aborting the whole fleet loop:
  either the `TypeError` from `print_firmware_options(None, None)` after a
  non-200 firmware query, or a transport exception raised inside
  `save_configuration` (whose `requests.post` is outside any `try`). -/
  | crashed
  /-- `version_found` stayed false: the error print, next row. -/
  | notFound
  /-- `upload_firmware` raised; caught by its `try`, `continue`. -/
  | uploadFailed
  /-- Reached the final `print` of the iteration (the script also reaches it
  when the upload endpoint answered non-200, since `upload_firmware` then
  merely returns `None`). -/
  | done
deriving Repr, DecidableEq

/-- Steps of the per-device workflow that issue an HTTP request or print the
firmware menu, in the order `main` attempts them. -/
inductive WorkflowStep where
  | queryFirmware
  | printOptions
  | backupConfig
  | uploadFirmware
deriving Repr, DecidableEq

/-- One iteration of the fleet loop in `main`, for the device `row` against
the network behaviour `env`, upgrading towards version `target`.  Returns the
terminal outcome together with the workflow steps attempted.

Control flow mirrors the source: the malformed-row check `continue`s; the
firmware query sits in a `try` whose handler `continue`s; the query result is
then fed to `print_firmware_options` unconditionally, so the `(None, None)`
returned after a non-200 status raises an uncaught `TypeError`
(`print_firmware_options none = .error ()`); the version loop sets
`version_found` by exact string equality; `save_configuration` is called
outside any `try`, its return value ignored; `upload_firmware` sits in a
`try` whose handler `continue`s. -/
def processDevice (target : String) (row : DeviceRow) (env : DeviceEnv) :
    DeviceResult × List WorkflowStep :=
  if malformedRow row then (.skipped, [])
  else
    match get_available_firmware env.firmware with
    | .error _ => (.queryFailed, [.queryFirmware])
    | .ok availOpt =>
      match print_firmware_options (availOpt.map Prod.snd), availOpt with
      | .error _, _ => (.crashed, [.queryFirmware, .printOptions])
      | .ok _, none => (.crashed, [.queryFirmware, .printOptions])
      | .ok _, some (_cur, fws) =>
        if fws.any (fun fw => fw.version == target) then
          match env.backup with
          | .error _ =>
            (.crashed, [.queryFirmware, .printOptions, .backupConfig])
          | .ok _ =>
            match env.upload with
            | .error _ =>
              (.uploadFailed,
               [.queryFirmware, .printOptions, .backupConfig,
                .uploadFirmware])
            | .ok _ =>
              (.done,
               [.queryFirmware, .printOptions, .backupConfig,
                .uploadFirmware])
        else (.notFound, [.queryFirmware, .printOptions])

/-- The fleet loop of `main`: rows in file order, one at a time.  A `crashed`
outcome is an exception propagating out of the loop, so no later row is
reached; every other outcome ends the iteration with `continue` or falls
through to the next row. -/
def runFleet (target : String) :
    List (DeviceRow × DeviceEnv) → List DeviceResult
  | [] => []
  | (row, env) :: rest =>
    let r := (processDevice target row env).1
    if r = .crashed then [r]
    else r :: runFleet target rest

/-! ## BasicFgtSdwanConfig.py : VDOM selection and default route -/

/-- One entry of the `results` array of `GET cmdb/system/vdom`; the script
reads only its `name`. -/
structure Vdom where
  name : String
deriving Repr, DecidableEq

/-- Python list subscription `l[i]`: nonnegative indices from the front,
negative indices from the back, `IndexError` (here `none`) out of range. -/
def pyIndex {α : Type} (l : List α) (i : Int) : Option α :=
  if 0 ≤ i then l.get? i.toNat
  else if 0 ≤ i + l.length then l.get? (i + l.length).toNat
  else none

/-- How `getTrafficVdomName` can fail to return a VDOM name. -/
inductive VdomErr where
  /-- `return vdom` reached with `vdom` never assigned: `UnboundLocalError`.
  Happens when the response status is not 200, or when the 200 response
  lists fewer than two VDOMs (neither branch of the `if`/`elif` runs). -/
  | unbound
  /-- `vdoms[vdom_number - 1]` raised `IndexError` in the menu branch. -/
  | badIndex
deriving Repr, DecidableEq

/-- The menu printed in the more-than-two-VDOMs branch:
`for i, vdom in enumerate(vdoms): print(f"{i+1}. {vdom['name']}")`,
i.e. the VDOM names in list order, numbered from 1. -/
def menuLines (vdoms : List Vdom) : List (Nat × String) :=
  vdoms.enum.map (fun p => (p.1 + 1, p.2.name))

/-- Embedding of `getTrafficVdomName`.  `status` and `vdoms` are the response
of `GET cmdb/system/vdom`; `userInput` is the integer the operator types when
the menu is shown (the prompt only happens in the `len(vdoms) > 2` branch).
With exactly two VDOMs the second is taken (`vdoms[1]`); with more than two
the 1-based menu choice is taken (`vdoms[vdom_number - 1]`, Python
subscription); otherwise `vdom` is never assigned and the final
`return vdom` raises. -/
def getTrafficVdomName (status : Nat) (vdoms : List Vdom) (userInput : Int) :
    Except VdomErr String :=
  if status = 200 then
    if vdoms.length = 2 then
      match vdoms.get? 1 with
      | some v => .ok v.name
      | none => .error .badIndex
    else if 2 < vdoms.length then
      match pyIndex vdoms (userInput - 1) with
      | some v => .ok v.name
      | none => .error .badIndex
    else .error .unbound
  else .error .unbound

/-- One entry of the `results` array of `GET cmdb/router/static`; the script
reads its `dst` and `seq_num`. -/
structure Route where
  dst : String
  seq_num : Nat
deriving Repr, DecidableEq

/-- A write request issued by `configureDefaultRoute`: `DELETE
cmdb/router/static/{seq_num}` or `POST cmdb/router/static` with the new
default-route body bound to the SD-WAN zone. -/
inductive RouteRequest where
  | deleteRoute (seq : Nat)
  | createRoute
deriving Repr, DecidableEq

/-- The destination string of a default route, as compared by the script. -/
def default_dst : String := "0.0.0.0 0.0.0.0"

/-- Embedding of `configureDefaultRoute`, as the list of write requests it
issues.  `status` and `routes` are the response of the initial GET; on 200
the script takes `next((route for route in routes if route['dst'] ==
"0.0.0.0 0.0.0.0"), None)` and either deletes that route by `seq_num` or
creates a new default route; on a non-200 GET it only prints. -/
def configureDefaultRoute (status : Nat) (routes : List Route) :
    List RouteRequest :=
  if status = 200 then
    match routes.find? (fun r => r.dst == default_dst) with
    | some r => [.deleteRoute r.seq_num]
    | none => [.createRoute]
  else []

/-- Helper for reasoning about `filter_available`: the body of the filtering
loop as a partial map on one raw entry. -/
def toCandidate (fw : RawFirmware) : Option Firmware :=
  match fw.version, fw.build, fw.releaseType, fw.maturity with
  | some v, some b, some rt, some m =>
    if v ≠ "" ∧ b ≠ 0 ∧ rt ≠ "" ∧ m ≠ "" then
      some ⟨v, b, rt, m, fw.notes⟩
    else none
  | _, _, _, _ => none

/-! ### Concrete inventories and network behaviours used as test inputs -/

/-- A well-formed inventory row. -/
def rowA : DeviceRow := ⟨"fgt-a", "10.0.0.1", "tokenA"⟩

/-- An inventory row with a missing `api_token` field (reads as `""`). -/
def rowB : DeviceRow := ⟨"fgt-b", "10.0.0.2", ""⟩

/-- Another well-formed inventory row. -/
def rowC : DeviceRow := ⟨"fgt-c", "10.0.0.3", "tokenC"⟩

/-- A device whose firmware query completes with HTTP status 500. -/
def envQuery500 : DeviceEnv :=
  ⟨.ok (500, ⟨"v7.2.0", []⟩), .ok (200, "cfg"), .ok (200, some 1)⟩

/-- A device whose firmware query succeeds with an empty candidate list. -/
def envQueryOkEmpty : DeviceEnv :=
  ⟨.ok (200, ⟨"v7.2.0", []⟩), .ok (200, "cfg"), .ok (200, some 1)⟩

/-- A raw firmware entry with all four mandatory fields truthy. -/
def fw741 : RawFirmware :=
  ⟨some "v7.4.1", some 2662, some "GA", some "Mature", none⟩

/-- A firmware-query body offering `v7.4.1`. -/
def body741 : FirmwareBody := ⟨"v7.2.5", [fw741]⟩

/-- A device offering `v7.4.1` whose config-backup request answers 500. -/
def envBackupFail : DeviceEnv :=
  ⟨.ok (200, body741), .ok (500, "cfg-text"), .ok (200, some 3)⟩

/-- A static-route table containing a default route at `seq_num` 4. -/
def routesWithDefault : List Route :=
  [⟨"10.0.0.0 255.0.0.0", 1⟩, ⟨"0.0.0.0 0.0.0.0", 4⟩]

/-! ## Helper lemmas -/

theorem matchVersionCore_shape {l g : List Char}
    (h : matchVersionCore l = some g) :
    ∃ d1 d2 d3 : List Char, d1 ≠ [] ∧ d2 ≠ [] ∧ d3 ≠ [] ∧
      (∀ c ∈ d1 ++ d2 ++ d3, c.isDigit) ∧
      g = d1 ++ '.' :: (d2 ++ '.' :: d3) := by
  simp only [matchVersionCore] at h
  split at h
  · exact absurd h (by simp)
  · rename_i h1
    split at h
    · rename_i r2 hr2
      split at h
      · exact absurd h (by simp)
      · rename_i h2
        split at h
        · rename_i r4 hr4
          split at h
          · exact absurd h (by simp)
          · rename_i h3
            refine ⟨l.takeWhile Char.isDigit, r2.takeWhile Char.isDigit,
              r4.takeWhile Char.isDigit, ?_, ?_, ?_, ?_, ?_⟩
            · simpa [List.isEmpty_iff] using h1
            · simpa [List.isEmpty_iff] using h2
            · simpa [List.isEmpty_iff] using h3
            · intro c hc
              rcases List.mem_append.1 hc with hc | hc
              · rcases List.mem_append.1 hc with hc | hc
                · exact List.mem_takeWhile_imp hc
                · exact List.mem_takeWhile_imp hc
              · exact List.mem_takeWhile_imp hc
            · exact (Option.some.inj h).symm
        · exact absurd h (by simp)
    · exact absurd h (by simp)

theorem matchVersionAt_shape {l g : List Char}
    (h : matchVersionAt l = some g) :
    ∃ d1 d2 d3 : List Char, d1 ≠ [] ∧ d2 ≠ [] ∧ d3 ≠ [] ∧
      (∀ c ∈ d1 ++ d2 ++ d3, c.isDigit) ∧
      g = d1 ++ '.' :: (d2 ++ '.' :: d3) := by
  unfold matchVersionAt at h
  split at h
  · split at h
    · exact matchVersionCore_shape (by rw [← h]; assumption)
    · exact matchVersionCore_shape h
  · exact matchVersionCore_shape h

theorem searchVersion_shape {l g : List Char}
    (h : searchVersion l = some g) :
    ∃ d1 d2 d3 : List Char, d1 ≠ [] ∧ d2 ≠ [] ∧ d3 ≠ [] ∧
      (∀ c ∈ d1 ++ d2 ++ d3, c.isDigit) ∧
      g = d1 ++ '.' :: (d2 ++ '.' :: d3) := by
  induction l with
  | nil => exact absurd h (by simp [searchVersion])
  | cons c rest ih =>
    rw [searchVersion] at h
    split at h
    · rename_i g' hg'
      rw [Option.some.inj h] at hg'
      exact matchVersionAt_shape hg'
    · exact ih h

theorem menuLines_get? (vdoms : List Vdom) (i : Nat) :
    (menuLines vdoms).get? i =
      (vdoms.get? i).map (fun v => (i + 1, v.name)) := by
  simp only [menuLines, List.get?_map, List.get?_enum]
  cases vdoms.get? i <;> rfl

theorem filter_available_eq_filterMap (l : List RawFirmware) :
    filter_available l = l.filterMap toCandidate := by
  induction l with
  | nil => rfl
  | cons fw rest ih =>
    rw [filter_available, List.filterMap_cons]
    obtain ⟨fv, fb, frt, fm, fn⟩ := fw
    cases fv <;> cases fb <;> cases frt <;> cases fm <;>
      simp only [toCandidate] <;>
      first
        | (split <;> simp [ih])
        | simp [ih]

theorem toCandidate_eq_some {fw : RawFirmware} {c : Firmware} :
    toCandidate fw = some c ↔
      (fw.version = some c.version ∧ fw.build = some c.build ∧
       fw.releaseType = some c.releaseType ∧ fw.maturity = some c.maturity ∧
       fw.notes = c.notes ∧ c.version ≠ "" ∧ c.build ≠ 0 ∧
       c.releaseType ≠ "" ∧ c.maturity ≠ "") := by
  obtain ⟨fv, fb, frt, fm, fn⟩ := fw
  obtain ⟨cv, cb, crt, cm, cn⟩ := c
  cases fv with
  | none => simp [toCandidate]
  | some v =>
  cases fb with
  | none => simp [toCandidate]
  | some b =>
  cases frt with
  | none => simp [toCandidate]
  | some rt =>
  cases fm with
  | none => simp [toCandidate]
  | some m =>
  simp only [toCandidate]
  split
  · rename_i htr
    simp only [Option.some.injEq, Firmware.mk.injEq]
    constructor
    · rintro ⟨rfl, rfl, rfl, rfl, rfl⟩
      exact ⟨rfl, rfl, rfl, rfl, rfl,
        htr.1, htr.2.1, htr.2.2.1, htr.2.2.2⟩
    · rintro ⟨h1, h2, h3, h4, h5, -⟩
      exact ⟨h1, h2, h3, h4, h5⟩
  · rename_i htr
    constructor
    · intro h
      exact absurd h (by simp)
    · rintro ⟨h1, h2, h3, h4, h5, t1, t2, t3, t4⟩
      obtain rfl := Option.some.inj h1
      obtain rfl := Option.some.inj h2
      obtain rfl := Option.some.inj h3
      obtain rfl := Option.some.inj h4
      exact absurd ⟨t1, t2, t3, t4⟩ htr

/-! ## Claim theorems -/

/-- C1: the claim says a device whose firmware query fails with an HTTP
error (e.g. 500) ends in a terminal Failed state and the fleet loop still
processes subsequent devices.  The code does not do this: on a completed
non-200 response, `get_available_firmware` returns `(None, None)` and `main`
then calls `print_firmware_options(None, None)` outside any `try`, so
`enumerate(None)` raises an uncaught `TypeError` that aborts the whole run.
This theorem evaluates the embedding at such an input: the first device
crashes (rather than ending in a recorded failed state) and the second,
healthy device never appears in the fleet results. -/
theorem fleet_loop_crashes_on_http500_query :
    processDevice "v7.4.1" rowA envQuery500 =
      (.crashed, [.queryFirmware, .printOptions]) ∧
    runFleet "v7.4.1" [(rowA, envQuery500), (rowC, envQueryOkEmpty)] =
      [.crashed] := by
  exact ⟨rfl, rfl⟩

/-- C2: for every device, the workflow reaches the backup and firmware-upload
steps exactly when the row is well formed and the firmware query returned a
candidate list containing an entry whose `version` string equals the target
exactly (the source loop breaks at the first equal candidate and only a
boolean flag is derived from it; no semantic version comparison exists). -/
theorem upload_gated_on_exact_version_match (target : String)
    (row : DeviceRow) (env : DeviceEnv) :
    (WorkflowStep.backupConfig ∈ (processDevice target row env).2 ∨
     WorkflowStep.uploadFirmware ∈ (processDevice target row env).2) ↔
      (¬ malformedRow row ∧
       ∃ cur fws,
         get_available_firmware env.firmware = .ok (some (cur, fws)) ∧
         ∃ fw ∈ fws, fw.version = target) := by
  by_cases hm : malformedRow row
  · simp [processDevice, hm]
  · cases hq : get_available_firmware env.firmware with
    | error e => simp [processDevice, hm, hq]
    | ok availOpt =>
      cases availOpt with
      | none => simp [processDevice, hm, hq, print_firmware_options]
      | some p =>
        obtain ⟨cur, fws⟩ := p
        by_cases hfound : ∃ fw ∈ fws, fw.version = target
        · have hany : fws.any (fun fw => fw.version == target) = true := by
            simp only [List.any_eq_true, beq_iff_eq]
            exact hfound
          have hlhs : WorkflowStep.backupConfig ∈
              (processDevice target row env).2 ∨
              WorkflowStep.uploadFirmware ∈
                (processDevice target row env).2 := by
            cases hb : env.backup with
            | error e =>
              simp [processDevice, hm, hq, print_firmware_options, hany, hb]
            | ok b =>
              cases hu : env.upload with
              | error e =>
                simp [processDevice, hm, hq, print_firmware_options, hany,
                  hb, hu]
              | ok u =>
                simp [processDevice, hm, hq, print_firmware_options, hany,
                  hb, hu]
          exact iff_of_true hlhs ⟨hm, cur, fws, rfl, hfound⟩
        · have hany : fws.any (fun fw => fw.version == target) = false := by
            simp only [List.any_eq_false, beq_iff_eq]
            push_neg at hfound
            exact hfound
          have hlhs : ¬ (WorkflowStep.backupConfig ∈
              (processDevice target row env).2 ∨
              WorkflowStep.uploadFirmware ∈
                (processDevice target row env).2) := by
            simp [processDevice, hm, hq, print_firmware_options, hany]
          refine iff_of_false hlhs ?_
          rintro ⟨-, cur1, fws1, hq1, hfound1⟩
          obtain ⟨rfl, rfl⟩ : cur = cur1 ∧ fws = fws1 := by
            simpa using hq1
          exact hfound hfound1

/-- C3: when the version match succeeded and the configuration-backup request
completes with a non-200 status, `save_configuration` writes no file and the
workflow still performs the firmware-upload step; backup failure never
prevents the upload. -/
theorem backup_failure_still_uploads (target : String) (row : DeviceRow)
    (env : DeviceEnv) (body : FirmwareBody) (st : Nat) (text : String)
    (hm : ¬ malformedRow row)
    (hq : env.firmware = .ok (200, body))
    (hfound : ∃ fw ∈ filter_available body.available, fw.version = target)
    (hb : env.backup = .ok (st, text)) (hst : st ≠ 200) :
    save_configuration row.fgt_name row.fw_ip st text = none ∧
    WorkflowStep.uploadFirmware ∈ (processDevice target row env).2 := by
  constructor
  · simp [save_configuration, hst]
  · have hga : get_available_firmware env.firmware =
        .ok (some (body.current, filter_available body.available)) := by
      simp [get_available_firmware, hq]
    have hany : (filter_available body.available).any
        (fun fw => fw.version == target) = true := by
      simp only [List.any_eq_true, beq_iff_eq]
      exact hfound
    cases hu : env.upload with
    | error e =>
      simp [processDevice, hm, hga, print_firmware_options, hany, hb, hu]
    | ok u =>
      simp [processDevice, hm, hga, print_firmware_options, hany, hb, hu]

theorem backup_failure_still_uploads_witness :
    save_configuration "fgt-a" "10.0.0.1" 500 "cfg-text" = none ∧
    WorkflowStep.uploadFirmware ∈
      (processDevice "v7.4.1" rowA envBackupFail).2 :=
  backup_failure_still_uploads "v7.4.1" rowA envBackupFail body741 500
    "cfg-text" (by decide) rfl
    ⟨⟨"v7.4.1", 2662, "GA", "Mature", none⟩, by decide, rfl⟩ rfl (by decide)

/-- C4: `parse_version_from_filename` yields `some "v7.4.1"` on
`"FGT_upgrade_v7.4.1.out"` and `none` on `"firmware_image.out"`, and every
returned value is `"v"` followed by three nonempty dot-separated digit
groups scanned from the filename. -/
theorem parse_version_examples_and_shape :
    parse_version_from_filename "FGT_upgrade_v7.4.1.out" = some "v7.4.1" ∧
    parse_version_from_filename "firmware_image.out" = none ∧
    ∀ s r, parse_version_from_filename s = some r →
      ∃ d1 d2 d3 : List Char, d1 ≠ [] ∧ d2 ≠ [] ∧ d3 ≠ [] ∧
        (∀ c ∈ d1 ++ d2 ++ d3, c.isDigit) ∧
        r = "v" ++ String.mk (d1 ++ '.' :: (d2 ++ '.' :: d3)) := by
  refine ⟨by decide, by decide, ?_⟩
  intro s r h
  simp only [parse_version_from_filename, Option.map_eq_some'] at h
  obtain ⟨g, hg, rfl⟩ := h
  obtain ⟨d1, d2, d3, h1, h2, h3, hd, rfl⟩ := searchVersion_shape hg
  exact ⟨d1, d2, d3, h1, h2, h3, hd, rfl⟩

theorem parse_version_examples_and_shape_witness :
    ∃ d1 d2 d3 : List Char, d1 ≠ [] ∧ d2 ≠ [] ∧ d3 ≠ [] ∧
      (∀ c ∈ d1 ++ d2 ++ d3, c.isDigit) ∧
      "v7.4.1" = "v" ++ String.mk (d1 ++ '.' :: (d2 ++ '.' :: d3)) :=
  parse_version_examples_and_shape.2.2 "FGT_upgrade_v7.4.1.out" "v7.4.1"
    (by decide)

/-- C5: a row with a missing mandatory field is skipped and the fleet loop
continues with the remaining rows; on the concrete three-row inventory whose
second row lacks `api_token`, rows 1 and 3 are processed, row 2 is skipped,
and the processed count is 2. -/
theorem malformed_row_skipped_fleet_continues :
    (∀ (target : String) (row : DeviceRow) (env : DeviceEnv)
       (rest : List (DeviceRow × DeviceEnv)), malformedRow row →
         runFleet target ((row, env) :: rest) =
           .skipped :: runFleet target rest) ∧
    runFleet "v7.4.1"
        [(rowA, envQueryOkEmpty), (rowB, envQueryOkEmpty),
         (rowC, envQueryOkEmpty)] =
      [.notFound, .skipped, .notFound] ∧
    (runFleet "v7.4.1"
        [(rowA, envQueryOkEmpty), (rowB, envQueryOkEmpty),
         (rowC, envQueryOkEmpty)]).countP
      (fun r => r != DeviceResult.skipped) = 2 := by
  refine ⟨?_, rfl, rfl⟩
  intro target row env rest hm
  rw [runFleet]
  simp [processDevice, hm]

theorem malformed_row_skipped_fleet_continues_witness :
    runFleet "v7.4.1" ((rowB, envQueryOkEmpty) :: [(rowC, envQueryOkEmpty)]) =
      .skipped :: runFleet "v7.4.1" [(rowC, envQueryOkEmpty)] :=
  malformed_row_skipped_fleet_continues.1 "v7.4.1" rowB envQueryOkEmpty
    [(rowC, envQueryOkEmpty)] (by decide)

/-- C6: with a 200 VDOM response of exactly two entries the second one is
selected no matter what the operator would type (no prompt happens), and
with more than two entries the 1-indexed menu lists the VDOM names in list
order and entering number k selects the k-th entry of the returned list. -/
theorem vdom_autoselect_and_menu :
    (∀ k : Int,
       getTrafficVdomName 200 [⟨"root"⟩, ⟨"traffic"⟩] k = .ok "traffic") ∧
    (∀ (vdoms : List Vdom) (k : Nat) (v : Vdom),
       2 < vdoms.length → 1 ≤ k → vdoms.get? (k - 1) = some v →
         getTrafficVdomName 200 vdoms (k : Int) = .ok v.name ∧
         (menuLines vdoms).get? (k - 1) = some (k, v.name)) := by
  constructor
  · intro k
    rfl
  · intro vdoms k v hlen hk hget
    constructor
    · have hne : ¬ vdoms.length = 2 := by omega
      have hidx : pyIndex vdoms ((k : Int) - 1) = some v := by
        have h0 : (0 : Int) ≤ (k : Int) - 1 := by omega
        have htn : ((k : Int) - 1).toNat = k - 1 := by omega
        rw [List.get?_eq_getElem?] at hget
        simp [pyIndex, h0, htn, hget]
      simp [getTrafficVdomName, hne, hlen, hidx]
    · rw [menuLines_get?, hget]
      have hk1 : k - 1 + 1 = k := by omega
      simp [hk1]

theorem vdom_autoselect_and_menu_witness :
    getTrafficVdomName 200 [⟨"root"⟩, ⟨"dmz"⟩, ⟨"traffic"⟩]
        ((2 : Nat) : Int) = .ok (Vdom.name ⟨"dmz"⟩) ∧
    (menuLines [⟨"root"⟩, ⟨"dmz"⟩, ⟨"traffic"⟩]).get? (2 - 1) =
      some (2, Vdom.name ⟨"dmz"⟩) :=
  vdom_autoselect_and_menu.2 [⟨"root"⟩, ⟨"dmz"⟩, ⟨"traffic"⟩] 2 ⟨"dmz"⟩
    (by decide) (by decide) (by decide)

/-- C7: on a 200 GET of the static routes, `configureDefaultRoute` issues
exactly one write request: the deletion of the first route whose destination
equals the default-route CIDR when one exists, and otherwise the creation of
a new default route bound to the SD-WAN zone; never both. -/
theorem default_route_delete_xor_create (routes : List Route) :
    (configureDefaultRoute 200 routes).length = 1 ∧
    ((∃ r ∈ routes, r.dst = default_dst) →
       ∃ r, routes.find? (fun q => q.dst == default_dst) = some r ∧
         r.dst = default_dst ∧
         configureDefaultRoute 200 routes = [.deleteRoute r.seq_num]) ∧
    ((∀ r ∈ routes, r.dst ≠ default_dst) →
       configureDefaultRoute 200 routes = [.createRoute]) := by
  refine ⟨?_, ?_, ?_⟩
  · unfold configureDefaultRoute
    simp only [if_pos rfl]
    cases h : routes.find? (fun q => q.dst == default_dst) <;> simp [h]
  · intro hex
    have hsome : (routes.find? (fun q => q.dst == default_dst)).isSome := by
      rw [List.find?_isSome]
      obtain ⟨r, hr, hdst⟩ := hex
      exact ⟨r, hr, by simp [hdst]⟩
    obtain ⟨r, hr⟩ := Option.isSome_iff_exists.1 hsome
    refine ⟨r, hr, by simpa using List.find?_some hr, ?_⟩
    simp [configureDefaultRoute, hr]
  · intro hall
    have hnone : routes.find? (fun q => q.dst == default_dst) = none := by
      rw [List.find?_eq_none]
      intro r hr
      simp [hall r hr]
    simp [configureDefaultRoute, hnone]

theorem default_route_delete_xor_create_witness :
    ∃ r, routesWithDefault.find? (fun q => q.dst == default_dst) = some r ∧
      r.dst = default_dst ∧
      configureDefaultRoute 200 routesWithDefault =
        [.deleteRoute r.seq_num] :=
  (default_route_delete_xor_create routesWithDefault).2.1
    ⟨⟨"0.0.0.0 0.0.0.0", 4⟩, by decide, rfl⟩

/-- C8: when the backup request completes with status 200 the device's
backup is exactly one file named `{fgt_name}-{fw_ip}-config-backup.conf`
whose content is the raw response body. -/
theorem backup_file_name_and_content (fgt_name fw_ip : String)
    (status : Nat) (text : String) (h : status = 200) :
    save_configuration fgt_name fw_ip status text =
      some (fgt_name ++ "-" ++ fw_ip ++ "-config-backup.conf", text) := by
  simp [save_configuration, h]

theorem backup_file_name_and_content_witness :
    save_configuration "fgt-a" "10.0.0.1" 200 "cfg-body" =
      some ("fgt-a" ++ "-" ++ "10.0.0.1" ++ "-config-backup.conf",
        "cfg-body") :=
  backup_file_name_and_content "fgt-a" "10.0.0.1" 200 "cfg-body" rfl

/-- C9: `getTrafficVdomName` ends in the unassigned-variable error (the
`UnboundLocalError` at `return vdom`) exactly when the VDOM query returned a
non-200 status or a successful response listing fewer than two VDOMs; in all
other cases it either returns a VDOM name or fails differently (an
out-of-range menu choice). -/
theorem vdom_unbound_error_iff (status : Nat) (vdoms : List Vdom)
    (userInput : Int) :
    getTrafficVdomName status vdoms userInput = .error .unbound ↔
      (status ≠ 200 ∨ vdoms.length < 2) := by
  by_cases hst : status = 200
  · subst hst
    by_cases h2 : vdoms.length = 2
    · obtain ⟨v, hv⟩ : ∃ v, vdoms.get? 1 = some v := by
        cases hv : vdoms.get? 1 with
        | none =>
          rw [List.get?_eq_none] at hv
          omega
        | some v => exact ⟨v, rfl⟩
      simp [getTrafficVdomName, h2, hv]
    · by_cases hgt : 2 < vdoms.length
      · cases hidx : pyIndex vdoms (userInput - 1) with
        | none =>
          simp [getTrafficVdomName, h2, hgt, hidx]
          omega
        | some v =>
          simp [getTrafficVdomName, h2, hgt, hidx]
          omega
      · have hlt : vdoms.length < 2 := by omega
        simp [getTrafficVdomName, h2, hgt, hlt]
  · simp [getTrafficVdomName, hst]

/-- C10: a 200 firmware query returns the filtered candidate list, and a
candidate is in that list exactly when some raw entry carries its five
fields with the four mandatory ones present and truthy (nonempty strings,
nonzero build); entries failing the check contribute nothing, and `notes`
is passed through unchecked, possibly absent. -/
theorem firmware_candidates_truthy_filter (body : FirmwareBody) :
    get_available_firmware (.ok (200, body)) =
      .ok (some (body.current, filter_available body.available)) ∧
    ∀ c : Firmware, c ∈ filter_available body.available ↔
      ∃ fw ∈ body.available,
        fw.version = some c.version ∧ fw.build = some c.build ∧
        fw.releaseType = some c.releaseType ∧
        fw.maturity = some c.maturity ∧ fw.notes = c.notes ∧
        c.version ≠ "" ∧ c.build ≠ 0 ∧ c.releaseType ≠ "" ∧
        c.maturity ≠ "" := by
  refine ⟨rfl, ?_⟩
  intro c
  rw [filter_available_eq_filterMap, List.mem_filterMap]
  constructor
  · rintro ⟨fw, hfw, hc⟩
    exact ⟨fw, hfw, toCandidate_eq_some.1 hc⟩
  · rintro ⟨fw, hfw, hp⟩
    exact ⟨fw, hfw, toCandidate_eq_some.2 hp⟩

